import Mathlib

/-!
Verification of the `dekhao` repository (a React single-page app that generates
YouTube titles, descriptions and thumbnails via the Gemini API).

The development shallowly embeds the two source files:

* `services/geminiService.ts` — the provider-facing functions
  `generateTextContent`, `generateImageFromText` and `editImage`.  Each is a
  pure function of the *environment outcome* (what the provider call returned,
  or the value it threw); the function body's control flow — including the
  `try`/`catch` normalisation of errors — is translated statement by statement.
* `App.tsx` — the orchestrator handlers `handleGenerateAll`,
  `handleRegenerateThumbnail`, `handleEditThumbnail` and
  `handleDownloadThumbnail`.  Each handler is a function from the component
  state plus the environment outcomes of its network calls to the final
  component state together with the list of network calls it issued, in order.

JavaScript platform primitives used by the source (`String.prototype.trim`,
`String.prototype.split` with a one-character separator, data-URL strings) are
embedded as executable Lean functions over `List Char`.
-/

namespace Dekhao

/-! ## JavaScript string primitives -/

/-- JS `String.prototype.trim`: drop leading and trailing whitespace. -/
def jsTrim (s : String) : String :=
  ⟨((s.data.dropWhile Char.isWhitespace).reverse.dropWhile Char.isWhitespace).reverse⟩

/-- Split a character list at every occurrence of `c`.  `splitOnCharList c l`
is never empty and never contains `c` inside a piece. -/
def splitOnCharList (c : Char) : List Char → List (List Char)
  | [] => [[]]
  | x :: xs =>
    if x = c then [] :: splitOnCharList c xs
    else
      match splitOnCharList c xs with
      | [] => [[x]]
      | g :: gs => (x :: g) :: gs

/-- JS `String.prototype.split` with a single-character separator. -/
def jsSplit (c : Char) (s : String) : List String :=
  (splitOnCharList c s.data).map (fun l => ⟨l⟩)

/-! ## Thrown values

A JavaScript `throw` delivers an arbitrary value.  The source only ever
inspects a thrown value through `err instanceof Error ? err.message : …`
(in `App.tsx`'s `handleError`), so we track an `Error`'s message, a platform
`TypeError` (an `Error` whose platform-generated message no theorem below
inspects), and any non-`Error` value. -/

inductive Thrown where
  | error (msg : String)
  | typeErr
  | other
deriving DecidableEq

/-- `App.tsx` `handleError`: `err instanceof Error ? err.message :
'An unknown error occurred. Please try again.'`.  A `TypeError` is an `Error`;
its platform-generated message is abbreviated here to `"TypeError"`, and no
theorem below depends on that text. -/
def handleErrorMsg : Thrown → String
  | .error m => m
  | .typeErr => "TypeError"
  | .other => "An unknown error occurred. Please try again."

/-! ## JSON values

`generateTextContent` feeds the provider's response text to the platform
primitive `JSON.parse`.  We embed the *result* of that parse: a JSON value
when the text is syntactically valid JSON, nothing when `JSON.parse` throws. -/

inductive Json where
  | null
  | bool (b : Bool)
  | num (n : Int)
  | str (s : String)
  | arr (elems : List Json)
  | obj (fields : List (String × Json))

/-- Look a key up in a JSON object field list (first match wins, as
`JSON.parse` keeps the last duplicate; the distinction is irrelevant below). -/
def lookupField : List (String × Json) → String → Option Json
  | [], _ => none
  | (k, v) :: rest, key => if k = key then some v else lookupField rest key

/-- Whether a JSON value is a string. -/
def isStrJson : Json → Bool
  | .str _ => true
  | _ => false

/-- Written from the spec's words, for comparison with the code: "a JSON
object with string fields `seoTitle` and `description`" — the shape the spec
says a successful `generateTextContent` payload is validated against. -/
def expectedShape : Json → Bool
  | .obj fields =>
    (match lookupField fields "seoTitle" with
     | some v => isStrJson v
     | none => false)
    &&
    (match lookupField fields "description" with
     | some v => isStrJson v
     | none => false)
  | _ => false

/-! ## `services/geminiService.ts` -/

/-- `generateTextContent`.  The environment argument is the outcome of the
`try` body up to and including `JSON.parse(response.text.trim())`:
`Except.error t` when the provider call (or the `.text`/`.trim` access)
throws `t`; `Except.ok none` when the provider returned text that is not
syntactically valid JSON, so `JSON.parse` throws; `Except.ok (some j)` when
`JSON.parse` succeeds with value `j`.  The source then returns the parsed
value directly (`return parsedJson as GeneratedTextContent` — a TypeScript
cast, not a runtime check), and its `catch` replaces any thrown value with
`new Error("Failed to generate video details from AI.")`. -/
def generateTextContent (env : Except Thrown (Option Json)) : Except Thrown Json :=
  match env with
  | .error _ => .error (.error "Failed to generate video details from AI.")
  | .ok none => .error (.error "Failed to generate video details from AI.")
  | .ok (some j) => .ok j

/-- A `part` of a Gemini response candidate, as read by `editImage`. -/
structure Part where
  inlineData : Option (String × String)
  text : Option String
deriving DecidableEq

/-- A Gemini response as read by `editImage`: `response.candidates[0].content.parts`.
Each candidate is its list of parts. -/
structure GenResponse where
  candidates : List (List Part)
deriving DecidableEq

/-- The `for (const part of …parts)` loop body of `editImage`: the first part
carrying `inlineData` wins; `inlineData` is its `(data, mimeType)` pair. -/
def firstInlineData : List Part → Option (String × String)
  | [] => none
  | p :: ps =>
    match p.inlineData with
    | some d => some d
    | none => firstInlineData ps

/-- The `try` body of `editImage` after the provider call returns `resp`:
reading `response.candidates[0]` of an empty candidate list throws a
`TypeError`; otherwise the loop returns a data URL built from the first
inline-data part, and if no part carries inline data the body throws
`new Error("The AI did not return an image. It may have refused the request.")`. -/
def editImageTry (resp : GenResponse) : Except Thrown String :=
  match resp.candidates.head? with
  | none => .error .typeErr
  | some parts =>
    match firstInlineData parts with
    | some (data, mimeType) => .ok ("data:" ++ mimeType ++ ";base64," ++ data)
    | none => .error (.error "The AI did not return an image. It may have refused the request.")

/-- `editImage`.  The environment argument is the outcome of the provider
call: the response, or the value the call threw.  The whole body runs inside
`try { … } catch (error) { console.error(…); throw new Error("Failed to edit
image with AI.") }`, so every thrown value — including the body's own
no-image `Error` — is replaced by the normalised message. -/
def editImage (env : Except Thrown GenResponse) : Except Thrown String :=
  match (do editImageTry (← env) : Except Thrown String) with
  | .ok v => .ok v
  | .error _ => .error (.error "Failed to edit image with AI.")

/-! ## `App.tsx` — state, network calls, handlers -/

/-- `GeneratedTextContent` as `App.tsx` consumes it (the success value of the
text call, per the TypeScript type). -/
structure GeneratedTextContent where
  seoTitle : String
  description : String
deriving DecidableEq

/-- The `userImage` state entry: `{data, mimeType, name}`. -/
structure UserImage where
  data : String
  mimeType : String
  name : String
deriving DecidableEq

/-- The `App` component's `useState` fields, one Lean field per hook. -/
structure AppState where
  videoIdea : String
  generatedContent : Option GeneratedTextContent
  thumbnailUrl : String
  userImage : Option UserImage
  thumbnailStyle : String
  thumbnailPrompt : String
  editPrompt : String
  isLoading : Bool
  isTextLoading : Bool
  isThumbnailLoading : Bool
  error : String
  copiedStates : List (String × Bool)
deriving DecidableEq

/-- A network call issued by a handler, with the arguments passed:
`generateTextContent(idea)`, `generateImageFromText(prompt)`, or
`editImage(data, mimeType, prompt)` (`data` is `none` when the JS value
passed would be `undefined`). -/
inductive Call where
  | text (idea : String)
  | gen (prompt : String)
  | edit (data : Option String) (mimeType : String) (prompt : String)
deriving DecidableEq

/-- Environment of one `handleGenerateAll` run: the outcome of the awaited
text call and, where reached, of the awaited image call. -/
structure GenAllEnv where
  textResult : Except Thrown GeneratedTextContent
  imageResult : Except Thrown String

/-- Environment of one `handleRegenerateThumbnail` / `handleEditThumbnail`
run: the outcome of the awaited image call, where reached. -/
structure ThumbEnv where
  imageResult : Except Thrown String

/-- The `styleInstruction` template literal of `handleGenerateAll`. -/
def styleInstruction (style : String) : String :=
  "Style: " ++ style ++ ", ultra-realistic, professional, high-contrast, eye-catching. IMPORTANT: Do NOT include any text, logos, or watermarks."

/-- The `finalThumbnailPrompt` expression of `handleGenerateAll`: one template
per presence of an uploaded image. -/
def finalThumbnailPrompt (hasUserImage : Bool) (seoTitle style : String) : String :=
  if hasUserImage then
    "Incorporate the subject from the provided image into a new scene for a YouTube thumbnail about \"" ++ seoTitle ++ "\". " ++ styleInstruction style
  else
    "Create a YouTube thumbnail for a video titled \"" ++ seoTitle ++ "\". " ++ styleInstruction style

/-- `handleGenerateAll`.  Returns the component state after the handler
finishes together with the network calls it issued, in program order.
Mirrors the source: the empty-idea guard returns before any state reset; the
reset raises all three loading flags and clears error, generated content,
thumbnail and copied flags; the awaited text call's failure jumps to
`catch`/`finally`; on success the prompt is built from the returned title and
stored, then the image call runs (`editImage` against the uploaded image when
present, else `generateImageFromText`). -/
def handleGenerateAll (s : AppState) (env : GenAllEnv) : AppState × List Call :=
  if jsTrim s.videoIdea = "" then
    ({ s with error := "Please enter a video idea first." }, [])
  else
    let s1 := { s with isLoading := true, isTextLoading := true, isThumbnailLoading := true,
                       error := "", generatedContent := none, thumbnailUrl := "",
                       copiedStates := [] }
    match env.textResult with
    | .error e =>
      ({ s1 with error := handleErrorMsg e, isTextLoading := false,
                 isThumbnailLoading := false, isLoading := false },
       [.text s.videoIdea])
    | .ok tc =>
      let s2 := { s1 with generatedContent := some tc, isTextLoading := false }
      let prompt := finalThumbnailPrompt s.userImage.isSome tc.seoTitle s.thumbnailStyle
      let s3 := { s2 with thumbnailPrompt := prompt }
      let call : Call :=
        match s.userImage with
        | some ui => .edit (some ui.data) ui.mimeType prompt
        | none => .gen prompt
      match env.imageResult with
      | .ok url =>
        ({ s3 with thumbnailUrl := url, isThumbnailLoading := false, isLoading := false },
         [.text s.videoIdea, call])
      | .error e =>
        ({ s3 with error := handleErrorMsg e, isTextLoading := false,
                   isThumbnailLoading := false, isLoading := false },
         [.text s.videoIdea, call])

/-- The synchronous prefix of `handleRegenerateThumbnail` after its guard:
`setIsThumbnailLoading(true); setError(''); setEditPrompt('')`. -/
def regenStart (s : AppState) : AppState :=
  { s with isThumbnailLoading := true, error := "", editPrompt := "" }

/-- `handleRegenerateThumbnail`: guard on an empty (trimmed) prompt, then the
state transition of `regenStart`, then the image call chosen by `userImage`
presence using the current `thumbnailPrompt`. -/
def handleRegenerateThumbnail (s : AppState) (env : ThumbEnv) : AppState × List Call :=
  if jsTrim s.thumbnailPrompt = "" then
    ({ s with error := "Thumbnail prompt cannot be empty." }, [])
  else
    let s1 := regenStart s
    let call : Call :=
      match s.userImage with
      | some ui => .edit (some ui.data) ui.mimeType s.thumbnailPrompt
      | none => .gen s.thumbnailPrompt
    match env.imageResult with
    | .ok url => ({ s1 with thumbnailUrl := url, isThumbnailLoading := false }, [call])
    | .error e => ({ s1 with error := handleErrorMsg e, isThumbnailLoading := false }, [call])

/-- The decode step of `handleEditThumbnail`:
`const [meta, base64Data] = thumbnailUrl.split(','); const mimeType =
meta.split(':')[1].split(';')[0]`.  When `meta` contains no colon,
`meta.split(':')[1]` is `undefined` and the `.split(';')` access throws a
`TypeError`.  `base64Data` is `none` when the URL contains no comma (the JS
destructuring leaves it `undefined`). -/
def decodeThumb (url : String) : Except Thrown (String × Option String) :=
  let pieces := jsSplit ',' url
  let meta := pieces.headD ""
  let base64Data := pieces.get? 1
  match (jsSplit ':' meta).get? 1 with
  | none => .error .typeErr
  | some t => .ok ((jsSplit ';' t).headD "", base64Data)

/-- `handleEditThumbnail`: guards on an empty (trimmed) edit prompt and on a
missing thumbnail; raises the busy flag and clears the error; decodes the
*current* `thumbnailUrl` (a throw in the decode is caught by the handler's
`catch`); calls `editImage` with the decoded bytes, mime type and the edit
instruction; on success stores the returned URL. -/
def handleEditThumbnail (s : AppState) (env : ThumbEnv) : AppState × List Call :=
  if jsTrim s.editPrompt = "" then
    ({ s with error := "Edit prompt cannot be empty." }, [])
  else if s.thumbnailUrl = "" then
    ({ s with error := "Generate a thumbnail first before editing." }, [])
  else
    let s1 := { s with isThumbnailLoading := true, error := "" }
    match decodeThumb s.thumbnailUrl with
    | .error e => ({ s1 with error := handleErrorMsg e, isThumbnailLoading := false }, [])
    | .ok (mimeType, base64Data) =>
      let call := Call.edit base64Data mimeType s.editPrompt
      match env.imageResult with
      | .ok url => ({ s1 with thumbnailUrl := url, isThumbnailLoading := false }, [call])
      | .error e => ({ s1 with error := handleErrorMsg e, isThumbnailLoading := false }, [call])

/-- `handleDownloadThumbnail`.  `now` is `Date.now()`.  Returns the state
(unchanged — the handler sets no React state) and the download filename, or
`none` when there is no thumbnail.  Mirrors
`thumbnailUrl.split(':')[1]?.split(';')[0]` (optional chaining: `none` when
the URL has no colon) and `mimeType?.split('/')[1] || 'jpeg'` (the fallback
fires when the chain is `undefined` or the subtype is the falsy `''`). -/
def handleDownloadThumbnail (s : AppState) (now : Nat) : AppState × Option String :=
  if s.thumbnailUrl = "" then (s, none)
  else
    let mimeType : Option String :=
      ((jsSplit ':' s.thumbnailUrl).get? 1).map (fun t => (jsSplit ';' t).headD "")
    let ext0 : Option String := mimeType.bind (fun m => (jsSplit '/' m).get? 1)
    let extension : String :=
      match ext0 with
      | none => "jpeg"
      | some e => if e = "" then "jpeg" else e
    (s, some ("dekhao-thumbnail-" ++ toString now ++ "." ++ extension))

/-- A concrete component state, used to instantiate theorems with hypotheses
at explicit inputs.  Matches the initial `useState` values of `App.tsx`. -/
def sampleState : AppState :=
  { videoIdea := "", generatedContent := none, thumbnailUrl := "", userImage := none,
    thumbnailStyle := "Cinematic", thumbnailPrompt := "", editPrompt := "",
    isLoading := false, isTextLoading := false, isThumbnailLoading := false,
    error := "", copiedStates := [] }

/-- A state mid-session: an idea typed, a prompt and edit instruction present,
a thumbnail generated.  Used to instantiate theorems at explicit inputs. -/
def busyDemoState : AppState :=
  { sampleState with videoIdea := "i", thumbnailPrompt := "p", editPrompt := "e",
                     thumbnailUrl := "data:image/png;base64,AAA" }

/-- A state with only a generated thumbnail, for the download theorems. -/
def downloadDemoState : AppState :=
  { sampleState with thumbnailUrl := "data:image/png;base64,AAA" }

/-- A concrete `handleGenerateAll` environment: both calls succeed. -/
def demoGenEnv : GenAllEnv :=
  { textResult := Except.ok { seoTitle := "t", description := "d" },
    imageResult := Except.ok "data:image/png;base64,BBB" }

/-- A concrete image-call environment: the call succeeds. -/
def demoThumbEnv : ThumbEnv :=
  { imageResult := Except.ok "data:image/png;base64,BBB" }

/-! ## Helper lemmas -/

theorem data_mk (l : List Char) : (⟨l⟩ : String).data = l := rfl

theorem not_mem_append {x : Char} {a b : List Char} (ha : x ∉ a) (hb : x ∉ b) :
    x ∉ a ++ b := fun h => (List.mem_append.mp h).elim ha hb

theorem not_mem_cons {x y : Char} {l : List Char} (hxy : x ≠ y) (hl : x ∉ l) :
    x ∉ y :: l := fun h => (List.mem_cons.mp h).elim hxy hl

theorem ne_empty_of_data_cons {s : String} {c : Char} {l : List Char}
    (h : s.data = c :: l) : s ≠ "" := by
  intro he
  rw [he] at h
  exact List.noConfusion h

theorem splitOnCharList_of_not_mem {c : Char} :
    ∀ {l : List Char}, c ∉ l → splitOnCharList c l = [l]
  | [], _ => rfl
  | x :: xs, h => by
    have hx : ¬ x = c := fun e => h (e ▸ List.mem_cons_self x xs)
    have hxs : c ∉ xs := fun m => h (List.mem_cons_of_mem _ m)
    simp [splitOnCharList, hx, splitOnCharList_of_not_mem hxs]

theorem splitOnCharList_append {c : Char} :
    ∀ (a b : List Char), c ∉ a →
      splitOnCharList c (a ++ c :: b) = a :: splitOnCharList c b
  | [], _, _ => by simp [splitOnCharList]
  | x :: xs, b, h => by
    have hx : ¬ x = c := fun e => h (e ▸ List.mem_cons_self x xs)
    have hxs : c ∉ xs := fun m => h (List.mem_cons_of_mem _ m)
    simp [splitOnCharList, hx, splitOnCharList_append xs b hxs]

/-- Decoding a well-formed data URL recovers exactly the mime type and the
base64 payload it was built from, provided the mime type contains none of the
three delimiter characters and the payload no comma. -/
theorem decodeThumb_dataUrl (mime data : String)
    (h1 : ',' ∉ mime.data) (h2 : ':' ∉ mime.data) (h3 : ';' ∉ mime.data)
    (h4 : ',' ∉ data.data) :
    decodeThumb ("data:" ++ mime ++ ";base64," ++ data) = Except.ok (mime, some data) := by
  have hurl : ("data:" ++ mime ++ ";base64," ++ data).data
      = (['d','a','t','a'] ++ ':' :: (mime.data ++ ';' :: ['b','a','s','e','6','4']))
        ++ ',' :: data.data := by
    show 'd' :: 'a' :: 't' :: 'a' :: ':' :: ((mime.data ++ [';','b','a','s','e','6','4',',']) ++ data.data) = _
    simp
  have hnc : (',' : Char) ∉ ['d','a','t','a'] ++ ':' :: (mime.data ++ ';' :: ['b','a','s','e','6','4']) :=
    not_mem_append (by decide) (not_mem_cons (by decide) (not_mem_append h1 (by decide)))
  have hsplit1 : splitOnCharList ',' ("data:" ++ mime ++ ";base64," ++ data).data
      = [['d','a','t','a'] ++ ':' :: (mime.data ++ ';' :: ['b','a','s','e','6','4']), data.data] := by
    rw [hurl, splitOnCharList_append _ _ hnc, splitOnCharList_of_not_mem h4]
  have hrest : (':' : Char) ∉ mime.data ++ ';' :: ['b','a','s','e','6','4'] :=
    not_mem_append h2 (by decide)
  have hsplit2 : splitOnCharList ':'
        (['d','a','t','a'] ++ ':' :: (mime.data ++ ';' :: ['b','a','s','e','6','4']))
      = [['d','a','t','a'], mime.data ++ ';' :: ['b','a','s','e','6','4']] := by
    rw [splitOnCharList_append _ _ (by decide), splitOnCharList_of_not_mem hrest]
  have hsplit3 : splitOnCharList ';' (mime.data ++ ';' :: ['b','a','s','e','6','4'])
      = [mime.data, ['b','a','s','e','6','4']] := by
    rw [splitOnCharList_append _ _ h3, splitOnCharList_of_not_mem (by decide)]
  simp only [decodeThumb, jsSplit, hsplit1, List.map, List.headD, data_mk, hsplit2,
    List.get?, hsplit3]

theorem firstInlineData_of_all_none :
    ∀ {ps : List Part}, (∀ p ∈ ps, p.inlineData = none) → firstInlineData ps = none
  | [], _ => rfl
  | p :: ps, h => by
    have hp := h p (List.mem_cons_self _ _)
    have hps : ∀ q ∈ ps, q.inlineData = none := fun q hq => h q (List.mem_cons_of_mem _ hq)
    simp [firstInlineData, hp, firstInlineData_of_all_none hps]

set_option maxRecDepth 40000 in
theorem needle_infix_styleInstruction (style : String) :
    ("Do NOT include any text" : String).data <:+: (styleInstruction style).data := by
  have h : ("Do NOT include any text" : String).data
      <:+: (", ultra-realistic, professional, high-contrast, eye-catching. IMPORTANT: Do NOT include any text, logos, or watermarks." : String).data := by
    decide
  refine h.trans ⟨("Style: " ++ style).data, [], ?_⟩
  simp [styleInstruction, String.data_append]

theorem title_infix_finalThumbnailPrompt (b : Bool) (t style : String) :
    t.data <:+: (finalThumbnailPrompt b t style).data := by
  cases b with
  | false =>
    refine ⟨("Create a YouTube thumbnail for a video titled \"" : String).data,
      ("\". " : String).data ++ (styleInstruction style).data, ?_⟩
    simp [finalThumbnailPrompt, String.data_append]
  | true =>
    refine ⟨("Incorporate the subject from the provided image into a new scene for a YouTube thumbnail about \"" : String).data,
      ("\". " : String).data ++ (styleInstruction style).data, ?_⟩
    simp [finalThumbnailPrompt, String.data_append]

theorem notext_infix_finalThumbnailPrompt (b : Bool) (t style : String) :
    ("Do NOT include any text" : String).data <:+: (finalThumbnailPrompt b t style).data := by
  refine (needle_infix_styleInstruction style).trans ?_
  cases b with
  | false =>
    refine ⟨("Create a YouTube thumbnail for a video titled \"" ++ t ++ "\". " : String).data, [], ?_⟩
    simp [finalThumbnailPrompt, String.data_append]
  | true =>
    refine ⟨("Incorporate the subject from the provided image into a new scene for a YouTube thumbnail about \"" ++ t ++ "\". " : String).data, [], ?_⟩
    simp [finalThumbnailPrompt, String.data_append]

/-! ## Claims -/

/-- C1, counterexample.  The claim says that when no response part carries
image data, `editImage` fails with the user-facing message "The AI did not
return an image. It may have refused the request.", distinguishable from the
transport-error message.  In the code that `throw` sits *inside* the `try`
block, so the function's own `catch` replaces it: at a concrete text-only
response the surfaced message is "Failed to edit image with AI.", not the
no-image message. -/
theorem editImage_refusal_message_counterexample :
    editImage (Except.ok ⟨[[{ inlineData := none, text := some "I cannot do that." }]]⟩)
      = Except.error (Thrown.error "Failed to edit image with AI.")
    ∧ Thrown.error "Failed to edit image with AI."
        ≠ Thrown.error "The AI did not return an image. It may have refused the request." :=
  ⟨rfl, by decide⟩

/-- C1, amended: when no response part carries image data the `try` body of
`editImage` does raise the internal error "The AI did not return an image. It
may have refused the request.", but the surrounding `catch` normalises every
thrown value, so the message surfaced to the caller is "Failed to edit image
with AI." in this case exactly as for a transport/provider error — the two
failure causes are not distinguishable by message. -/
theorem editImage_failure_messages (resp : GenResponse)
    (hno : ∀ parts ∈ resp.candidates, ∀ p ∈ parts, p.inlineData = none) :
    editImage (Except.ok resp) = Except.error (Thrown.error "Failed to edit image with AI.")
    ∧ (∀ t, editImage (Except.error t)
        = Except.error (Thrown.error "Failed to edit image with AI."))
    ∧ (∀ parts, resp.candidates.head? = some parts →
        editImageTry resp
          = Except.error (Thrown.error "The AI did not return an image. It may have refused the request.")) := by
  obtain ⟨cands⟩ := resp
  refine ⟨?_, fun t => rfl, ?_⟩
  · cases cands with
    | nil => rfl
    | cons parts rest =>
      have hp : firstInlineData parts = none :=
        firstInlineData_of_all_none (hno parts (List.mem_cons_self _ _))
      simp [editImage, editImageTry, hp, Bind.bind, Except.bind]
  · intro parts hparts
    cases cands with
    | nil => exact Option.noConfusion hparts
    | cons q rest =>
      have hq : q = parts := by simpa using hparts
      subst hq
      have hp : firstInlineData q = none :=
        firstInlineData_of_all_none (hno q (List.mem_cons_self _ _))
      simp [editImageTry, hp]

theorem editImage_failure_messages_witness :
    editImage (Except.ok ⟨[[{ inlineData := none, text := some "I cannot do that." }]]⟩)
      = Except.error (Thrown.error "Failed to edit image with AI.") :=
  (editImage_failure_messages ⟨[[{ inlineData := none, text := some "I cannot do that." }]]⟩
    (by decide)).1

/-- C2, counterexample.  The claim says `generateTextContent` fails whenever
the returned payload fails to parse against the expected shape (a JSON object
with string fields `seoTitle` and `description`), and that on success both
fields are populated strings.  The code runs `JSON.parse` and then only a
TypeScript cast — no runtime shape check.  At a provider response whose text
is `123` (valid JSON, wrong shape) the call succeeds and returns the bare
number. -/
theorem generateTextContent_no_shape_validation :
    generateTextContent (Except.ok (some (Json.num 123))) = Except.ok (Json.num 123)
    ∧ expectedShape (Json.num 123) = false :=
  ⟨rfl, rfl⟩

/-- C2, amended: `generateTextContent` fails — always with the message
"Failed to generate video details from AI." — exactly when the provider call
throws or the returned text is not syntactically valid JSON (`JSON.parse`
throws); when `JSON.parse` succeeds it returns the parsed JSON value
verbatim, with no client-side validation of the `{seoTitle, description}`
shape (the schema is only requested from the provider). -/
theorem generateTextContent_amended :
    (∀ t, generateTextContent (Except.error t)
        = Except.error (Thrown.error "Failed to generate video details from AI."))
    ∧ generateTextContent (Except.ok none)
        = Except.error (Thrown.error "Failed to generate video details from AI.")
    ∧ (∀ j, generateTextContent (Except.ok (some j)) = Except.ok j) :=
  ⟨fun _ => rfl, rfl, fun _ => rfl⟩

/-- C3: when the video idea is empty or whitespace-only after trimming,
`handleGenerateAll` sets the validation error "Please enter a video idea
first.", performs zero network calls, and leaves every other state field —
busy flags, generated content, thumbnail, prompt, copied flags — unchanged. -/
theorem handleGenerateAll_empty_idea (s : AppState) (env : GenAllEnv)
    (h : jsTrim s.videoIdea = "") :
    handleGenerateAll s env = ({ s with error := "Please enter a video idea first." }, []) := by
  simp [handleGenerateAll, h]

theorem handleGenerateAll_empty_idea_witness :
    jsTrim ("  " : String) = ""
    ∧ handleGenerateAll { sampleState with videoIdea := "  " } demoGenEnv
        = ({ sampleState with videoIdea := "  ",
                              error := "Please enter a video idea first." }, []) :=
  ⟨by decide, handleGenerateAll_empty_idea { sampleState with videoIdea := "  " } demoGenEnv (by decide)⟩

/-- C4: in every `handleGenerateAll` run whose text call succeeds with `tc`,
the stored thumbnail prompt textually contains `tc.seoTitle` and the
instruction "Do NOT include any text"; the call trace is exactly the text
call followed by one image call — so the prompt is built only after the text
call completes and the two calls are sequential — and that image call
receives exactly the stored prompt: `editImage` on the uploaded image's bytes
when one is present, `generateImageFromText` otherwise. -/
theorem handleGenerateAll_prompt_after_text (s : AppState) (env : GenAllEnv)
    (tc : GeneratedTextContent)
    (hidea : jsTrim s.videoIdea ≠ "") (htext : env.textResult = Except.ok tc) :
    tc.seoTitle.data <:+: (handleGenerateAll s env).1.thumbnailPrompt.data
    ∧ ("Do NOT include any text" : String).data
        <:+: (handleGenerateAll s env).1.thumbnailPrompt.data
    ∧ (s.userImage = none →
        (handleGenerateAll s env).2
          = [Call.text s.videoIdea, Call.gen (handleGenerateAll s env).1.thumbnailPrompt])
    ∧ (∀ ui, s.userImage = some ui →
        (handleGenerateAll s env).2
          = [Call.text s.videoIdea,
             Call.edit (some ui.data) ui.mimeType (handleGenerateAll s env).1.thumbnailPrompt]) := by
  obtain ⟨tr, ir⟩ := env
  have htr : tr = Except.ok tc := htext
  subst htr
  have hmain : (handleGenerateAll s ⟨Except.ok tc, ir⟩).1.thumbnailPrompt
      = finalThumbnailPrompt s.userImage.isSome tc.seoTitle s.thumbnailStyle := by
    simp only [handleGenerateAll, if_neg hidea]
    cases ir <;> rfl
  refine ⟨?_, ?_, fun hui => ?_, fun ui hui => ?_⟩
  · rw [hmain]; exact title_infix_finalThumbnailPrompt _ _ _
  · rw [hmain]; exact notext_infix_finalThumbnailPrompt _ _ _
  · simp only [handleGenerateAll, if_neg hidea, hui]
    cases ir <;> rfl
  · simp only [handleGenerateAll, if_neg hidea, hui]
    cases ir <;> rfl

theorem handleGenerateAll_prompt_after_text_witness :
    ("t" : String).data
      <:+: (handleGenerateAll busyDemoState demoGenEnv).1.thumbnailPrompt.data :=
  (handleGenerateAll_prompt_after_text busyDemoState demoGenEnv
    { seoTitle := "t", description := "d" } (by decide) rfl).1

/-- C5: in every `handleGenerateAll` run whose text step fails — with the
error that `generateTextContent` produces on any failing provider input —
the error state is set to the fixed message "Failed to generate video details
from AI.", no image call is made (the trace is the text call alone), the
thumbnail stays unset, and all three busy flags are `false` at completion. -/
theorem handleGenerateAll_text_failure (s : AppState) (penv : Except Thrown (Option Json))
    (ir : Except Thrown String) (e : Thrown)
    (hidea : jsTrim s.videoIdea ≠ "")
    (hfail : generateTextContent penv = Except.error e) :
    handleGenerateAll s ⟨Except.error e, ir⟩
      = ({ s with error := "Failed to generate video details from AI.",
                  generatedContent := none, thumbnailUrl := "", copiedStates := [],
                  isLoading := false, isTextLoading := false, isThumbnailLoading := false },
         [Call.text s.videoIdea]) := by
  have he : e = Thrown.error "Failed to generate video details from AI." := by
    cases penv with
    | error t => injection hfail with h; exact h.symm
    | ok o =>
      cases o with
      | none => injection hfail with h; exact h.symm
      | some j => exact Except.noConfusion hfail
  subst he
  simp only [handleGenerateAll, if_neg hidea]
  rfl

theorem handleGenerateAll_text_failure_witness :
    handleGenerateAll busyDemoState
        ⟨Except.error (Thrown.error "Failed to generate video details from AI."),
         Except.ok "data:image/png;base64,BBB"⟩
      = ({ busyDemoState with error := "Failed to generate video details from AI.",
                              generatedContent := none, thumbnailUrl := "", copiedStates := [],
                              isLoading := false, isTextLoading := false,
                              isThumbnailLoading := false },
         [Call.text "i"]) :=
  handleGenerateAll_text_failure busyDemoState (Except.ok none)
    (Except.ok "data:image/png;base64,BBB") _ (by decide) rfl

/-- C6: every run of the three orchestrator handlers that passes its
validation guard — whatever the step outcomes, success, provider failure, or
a malformed thumbnail URL throwing inside `handleEditThumbnail`'s decode —
ends with `isThumbnailLoading = false`, and `handleGenerateAll` additionally
with `isLoading = false` and `isTextLoading = false`: the `finally` reset is
always reached and no busy flag is left stuck. -/
theorem handlers_clear_busy_flags (s : AppState) (env : GenAllEnv) (tenv tenv2 : ThumbEnv) :
    (jsTrim s.videoIdea ≠ "" →
      (handleGenerateAll s env).1.isThumbnailLoading = false
      ∧ (handleGenerateAll s env).1.isLoading = false
      ∧ (handleGenerateAll s env).1.isTextLoading = false)
    ∧ (jsTrim s.thumbnailPrompt ≠ "" →
        (handleRegenerateThumbnail s tenv).1.isThumbnailLoading = false)
    ∧ (jsTrim s.editPrompt ≠ "" → s.thumbnailUrl ≠ "" →
        (handleEditThumbnail s tenv2).1.isThumbnailLoading = false) := by
  refine ⟨fun h => ?_, fun h => ?_, fun h hu => ?_⟩
  · obtain ⟨tr, ir⟩ := env
    simp only [handleGenerateAll, if_neg h]
    cases tr <;> cases ir <;> exact ⟨rfl, rfl, rfl⟩
  · obtain ⟨ir⟩ := tenv
    simp only [handleRegenerateThumbnail, if_neg h]
    cases ir <;> rfl
  · obtain ⟨ir⟩ := tenv2
    simp only [handleEditThumbnail, if_neg h, if_neg hu]
    cases hd : decodeThumb s.thumbnailUrl with
    | error e => simp only [hd]
    | ok p =>
      obtain ⟨m, b⟩ := p
      simp only [hd]
      cases ir <;> rfl

theorem handlers_clear_busy_flags_witness :
    ((handleGenerateAll busyDemoState demoGenEnv).1.isThumbnailLoading = false
      ∧ (handleGenerateAll busyDemoState demoGenEnv).1.isLoading = false
      ∧ (handleGenerateAll busyDemoState demoGenEnv).1.isTextLoading = false)
    ∧ (handleRegenerateThumbnail busyDemoState demoThumbEnv).1.isThumbnailLoading = false
    ∧ (handleEditThumbnail busyDemoState demoThumbEnv).1.isThumbnailLoading = false :=
  ⟨(handlers_clear_busy_flags busyDemoState demoGenEnv demoThumbEnv demoThumbEnv).1 (by decide),
   (handlers_clear_busy_flags busyDemoState demoGenEnv demoThumbEnv demoThumbEnv).2.1 (by decide),
   (handlers_clear_busy_flags busyDemoState demoGenEnv demoThumbEnv demoThumbEnv).2.2
     (by decide) (by decide)⟩

/-- C7: with a non-empty edit instruction and a thumbnail stored as a
well-formed data URL, `handleEditThumbnail` decodes the mime type and base64
bytes of the *current* thumbnail, calls `editImage` with exactly those plus
the instruction, and on success replaces the thumbnail wholesale with the
returned value — so successive edits apply cumulatively to the latest
thumbnail.  The run never consults the uploaded source image: the same call
is issued whatever `userImage` holds. -/
theorem handleEditThumbnail_edits_current (s : AppState) (tenv : ThumbEnv)
    (mime data url2 : String)
    (hep : jsTrim s.editPrompt ≠ "")
    (hurl : s.thumbnailUrl = "data:" ++ mime ++ ";base64," ++ data)
    (h1 : ',' ∉ mime.data) (h2 : ':' ∉ mime.data) (h3 : ';' ∉ mime.data)
    (h4 : ',' ∉ data.data)
    (hok : tenv.imageResult = Except.ok url2) :
    handleEditThumbnail s tenv
      = ({ s with isThumbnailLoading := false, error := "", thumbnailUrl := url2 },
         [Call.edit (some data) mime s.editPrompt])
    ∧ (∀ ui, (handleEditThumbnail { s with userImage := ui } tenv).2
        = [Call.edit (some data) mime s.editPrompt]) := by
  obtain ⟨ir⟩ := tenv
  have hir : ir = Except.ok url2 := hok
  subst hir
  have H : ∀ s' : AppState, jsTrim s'.editPrompt ≠ "" →
      s'.thumbnailUrl = "data:" ++ mime ++ ";base64," ++ data →
      handleEditThumbnail s' ⟨Except.ok url2⟩
        = ({ s' with isThumbnailLoading := false, error := "", thumbnailUrl := url2 },
           [Call.edit (some data) mime s'.editPrompt]) := by
    intro s' hep' hurl'
    have hne : s'.thumbnailUrl ≠ "" := by
      rw [hurl']
      exact ne_empty_of_data_cons rfl
    have hne2 : ("data:" ++ mime ++ ";base64," ++ data : String) ≠ "" := hurl' ▸ hne
    simp only [handleEditThumbnail, if_neg hep', if_neg hne, hurl', if_neg hne2,
      decodeThumb_dataUrl mime data h1 h2 h3 h4]
  refine ⟨H s hep hurl, fun ui => ?_⟩
  rw [H { s with userImage := ui } hep hurl]

theorem handleEditThumbnail_edits_current_witness :
    handleEditThumbnail busyDemoState demoThumbEnv
      = ({ busyDemoState with isThumbnailLoading := false, error := "",
                              thumbnailUrl := "data:image/png;base64,BBB" },
         [Call.edit (some "AAA") "image/png" "e"]) :=
  (handleEditThumbnail_edits_current busyDemoState demoThumbEnv "image/png" "AAA"
    "data:image/png;base64,BBB" (by decide) rfl (by decide) (by decide) (by decide)
    (by decide) rfl).1

/-- C8: with an empty (trimmed) thumbnail prompt, `handleRegenerateThumbnail`
sets the validation error "Thumbnail prompt cannot be empty." and issues no
network call; with a non-empty prompt its synchronous prefix sets
`isThumbnailLoading := true` and clears the error and the quick-edit
instruction field, and the one call issued is `editImage` against the
uploaded source image when one is present, else `generateImageFromText`,
both receiving the current (possibly user-edited) thumbnail prompt. -/
theorem handleRegenerateThumbnail_spec (s : AppState) (tenv : ThumbEnv) :
    (jsTrim s.thumbnailPrompt = "" →
      handleRegenerateThumbnail s tenv
        = ({ s with error := "Thumbnail prompt cannot be empty." }, []))
    ∧ (jsTrim s.thumbnailPrompt ≠ "" →
        regenStart s = { s with isThumbnailLoading := true, error := "", editPrompt := "" }
        ∧ (s.userImage = none →
            (handleRegenerateThumbnail s tenv).2 = [Call.gen s.thumbnailPrompt])
        ∧ (∀ ui, s.userImage = some ui →
            (handleRegenerateThumbnail s tenv).2
              = [Call.edit (some ui.data) ui.mimeType s.thumbnailPrompt])) := by
  obtain ⟨ir⟩ := tenv
  refine ⟨fun h => ?_, fun h => ⟨rfl, fun hui => ?_, fun ui hui => ?_⟩⟩
  · simp [handleRegenerateThumbnail, h]
  · simp only [handleRegenerateThumbnail, if_neg h, hui]
    cases ir <;> rfl
  · simp only [handleRegenerateThumbnail, if_neg h, hui]
    cases ir <;> rfl

theorem handleRegenerateThumbnail_spec_witness :
    handleRegenerateThumbnail sampleState demoThumbEnv
      = ({ sampleState with error := "Thumbnail prompt cannot be empty." }, [])
    ∧ (handleRegenerateThumbnail busyDemoState demoThumbEnv).2 = [Call.gen "p"] :=
  ⟨(handleRegenerateThumbnail_spec sampleState demoThumbEnv).1 (by decide),
   ((handleRegenerateThumbnail_spec busyDemoState demoThumbEnv).2 (by decide)).2.1 rfl⟩

theorem mk_data_eta (s : String) : (⟨s.data⟩ : String) = s := rfl

theorem string_append_assoc (a b c : String) : a ++ b ++ c = a ++ (b ++ c) := by
  show (⟨(a.data ++ b.data) ++ c.data⟩ : String) = ⟨a.data ++ (b.data ++ c.data)⟩
  rw [List.append_assoc]

/-- C9: for a thumbnail stored as a well-formed data URL,
`handleDownloadThumbnail` produces the filename
`dekhao-thumbnail-<timestamp>.<ext>` where `<ext>` is the subtype of the
stored mime type (`image/png` yields `png`); when no mime type is recoverable
(no colon in the URL) the extension defaults to `jpeg`; with no thumbnail the
handler is a no-op; and in every case the component state is untouched. -/
theorem handleDownloadThumbnail_spec (s : AppState) (now : Nat)
    (ty sub data : String)
    (hurl : s.thumbnailUrl = "data:" ++ ty ++ "/" ++ sub ++ ";base64," ++ data)
    (hty1 : ':' ∉ ty.data) (hty2 : ';' ∉ ty.data) (hty3 : '/' ∉ ty.data)
    (hsub1 : ':' ∉ sub.data) (hsub2 : ';' ∉ sub.data) (hsub3 : '/' ∉ sub.data)
    (hdata : ':' ∉ data.data) (hsub : sub ≠ "") :
    handleDownloadThumbnail s now
      = (s, some ("dekhao-thumbnail-" ++ toString now ++ "." ++ sub))
    ∧ (∀ (s2 : AppState) (n : Nat), s2.thumbnailUrl = "" →
        handleDownloadThumbnail s2 n = (s2, none))
    ∧ (∀ (s2 : AppState) (n : Nat), s2.thumbnailUrl ≠ "" → ':' ∉ s2.thumbnailUrl.data →
        handleDownloadThumbnail s2 n
          = (s2, some ("dekhao-thumbnail-" ++ toString n ++ ".jpeg")))
    ∧ (∀ (s2 : AppState) (n : Nat), (handleDownloadThumbnail s2 n).1 = s2) := by
  have hu : ("data:" ++ ty ++ "/" ++ sub ++ ";base64," ++ data).data
      = ['d','a','t','a']
        ++ ':' :: (ty.data ++ '/' :: (sub.data ++ ';' :: (['b','a','s','e','6','4',','] ++ data.data))) := by
    show 'd' :: 'a' :: 't' :: 'a' :: ':' :: ((((ty.data ++ ['/']) ++ sub.data) ++ [';','b','a','s','e','6','4',',']) ++ data.data) = _
    simp
  have hR : (':' : Char)
      ∉ ty.data ++ '/' :: (sub.data ++ ';' :: (['b','a','s','e','6','4',','] ++ data.data)) :=
    not_mem_append hty1 (not_mem_cons (by decide)
      (not_mem_append hsub1 (not_mem_cons (by decide)
        (not_mem_append (by decide) hdata))))
  have hsp1 : splitOnCharList ':' s.thumbnailUrl.data
      = [['d','a','t','a'],
         ty.data ++ '/' :: (sub.data ++ ';' :: (['b','a','s','e','6','4',','] ++ data.data))] := by
    rw [hurl, hu, splitOnCharList_append _ _ (by decide), splitOnCharList_of_not_mem hR]
  have hR2 : ty.data ++ '/' :: (sub.data ++ ';' :: (['b','a','s','e','6','4',','] ++ data.data))
      = (ty.data ++ '/' :: sub.data) ++ ';' :: (['b','a','s','e','6','4',','] ++ data.data) := by
    simp
  have hsp2 : splitOnCharList ';'
        (ty.data ++ '/' :: (sub.data ++ ';' :: (['b','a','s','e','6','4',','] ++ data.data)))
      = (ty.data ++ '/' :: sub.data)
        :: splitOnCharList ';' (['b','a','s','e','6','4',','] ++ data.data) := by
    rw [hR2, splitOnCharList_append _ _ (not_mem_append hty2 (not_mem_cons (by decide) hsub2))]
  have hsp3 : splitOnCharList '/' (ty.data ++ '/' :: sub.data) = [ty.data, sub.data] := by
    rw [splitOnCharList_append _ _ hty3, splitOnCharList_of_not_mem hsub3]
  have hne : s.thumbnailUrl ≠ "" := by
    rw [hurl]
    exact ne_empty_of_data_cons rfl
  refine ⟨?_, fun s2 n h => by simp [handleDownloadThumbnail, h], fun s2 n h2 hnc => ?_,
    fun s2 n => ?_⟩
  · simp only [handleDownloadThumbnail, if_neg hne, jsSplit, hsp1, List.map, List.get?,
      Option.map, data_mk, hsp2, List.headD, hsp3, Option.bind, mk_data_eta, if_neg hsub]
  · have hs1 : splitOnCharList ':' s2.thumbnailUrl.data = [s2.thumbnailUrl.data] :=
      splitOnCharList_of_not_mem hnc
    simp only [handleDownloadThumbnail, if_neg h2, jsSplit, hs1, List.map, List.get?,
      Option.map, Option.bind]
    rw [string_append_assoc ("dekhao-thumbnail-" ++ toString n) "." "jpeg"]
    rfl
  · simp only [handleDownloadThumbnail]
    split <;> rfl

theorem handleDownloadThumbnail_spec_witness :
    handleDownloadThumbnail downloadDemoState 7
      = (downloadDemoState, some ("dekhao-thumbnail-" ++ toString 7 ++ "." ++ "png")) :=
  (handleDownloadThumbnail_spec downloadDemoState 7 "image" "png" "AAA" rfl
    (by decide) (by decide) (by decide) (by decide) (by decide) (by decide) (by decide)
    (by decide)).1

/-- C10: when `handleGenerateAll`'s text step fails, the thumbnail prompt is
left exactly as it was before the run: the initial reset clears the generated
content, the thumbnail, the error and the copied flags — never the prompt —
and the prompt is only overwritten after a successful text step.  The second
conjunct lists the failure-path state in full: `thumbnailPrompt` is the one
field of the reset-then-fail path carried over from `s` unmodified alongside
the untouched input fields. -/
theorem handleGenerateAll_text_failure_frame (s : AppState) (ir : Except Thrown String)
    (e : Thrown) (hidea : jsTrim s.videoIdea ≠ "") :
    (handleGenerateAll s ⟨Except.error e, ir⟩).1.thumbnailPrompt = s.thumbnailPrompt
    ∧ (handleGenerateAll s ⟨Except.error e, ir⟩).1
        = { s with error := handleErrorMsg e, generatedContent := none, thumbnailUrl := "",
                   copiedStates := [], isLoading := false, isTextLoading := false,
                   isThumbnailLoading := false } := by
  refine ⟨?_, ?_⟩ <;> simp only [handleGenerateAll, if_neg hidea]

theorem handleGenerateAll_text_failure_frame_witness :
    (handleGenerateAll busyDemoState
        ⟨Except.error Thrown.other, Except.ok "data:image/png;base64,BBB"⟩).1.thumbnailPrompt
      = "p" :=
  (handleGenerateAll_text_failure_frame busyDemoState (Except.ok "data:image/png;base64,BBB")
    Thrown.other (by decide)).1

end Dekhao
